import Mathlib

/-!
Shallow embedding of `src/search_scene_nodes.py` (the `SearchSceneNodes`
Qt dialog for Maya) and verification of its specification.

The host application (Maya) is modelled as a value of type `Host`: a scene
(a list of named, typed nodes, some of which are shape nodes) together with
the list of all known node type names.  The Maya API calls used by the
script become pure functions on `Host`:

  * `cmds.ls()`            ↦ `Host.ls`
  * `cmds.ls(type=t)`      ↦ `Host.lsType`
  * `cmds.ls(shapes=True)` ↦ `Host.lsShapes`
  * `cmds.objExists(n)`    ↦ `Host.objExists`

The dialog's mutable widget/attribute state becomes the structure `Dialog`,
and each Python method becomes a state-passing function `Host → Dialog → Dialog`.
Python's case-insensitive substring test `q.lower() in n.lower()` is embedded
as `substrMatch` (ASCII lowercasing, which is what node names use).
-/

namespace SearchSceneNodes

/-- A scene node owned by the host application: an opaque name, a node type
name, and whether it is a shape node (so that it appears in the host's
shape-node query). -/
structure SceneNode where
  name : String
  ntype : String
  isShape : Bool
deriving DecidableEq

/-- The host application's state visible to the script: the scene (an ordered
list of nodes) and the list of all known node type names
(`cmds.allNodeTypes()`). -/
structure Host where
  scene : List SceneNode
  allNodeTypes : List String
deriving DecidableEq

/-- `cmds.ls()`: all scene node names, in scene order. -/
def Host.ls (h : Host) : List String :=
  h.scene.map SceneNode.name

/-- `cmds.ls(type=t)`: names of the scene nodes whose type is exactly `t`. -/
def Host.lsType (h : Host) (t : String) : List String :=
  (h.scene.filter (fun nd => nd.ntype == t)).map SceneNode.name

/-- `cmds.ls(shapes=True)`: names of the shape nodes in the scene. -/
def Host.lsShapes (h : Host) : List String :=
  (h.scene.filter (fun nd => nd.isShape)).map SceneNode.name

/-- `cmds.objExists(n)`: whether a node with name `n` exists in the scene. -/
def Host.objExists (h : Host) (n : String) : Bool :=
  h.ls.contains n

/-- The type of the (first) scene node named `n`, or `""` if none exists.
Used only to state specifications; when scene node names are unique this
agrees with `Host.lsType` (see `lsType_eq_filter_typeOf`). -/
def Host.typeOf (h : Host) (n : String) : String :=
  match h.scene.find? (fun nd => nd.name == n) with
  | some nd => nd.ntype
  | none => ""

/-- `SearchSceneNodes.NO_NODETYPE`: the sentinel combo entry (empty string). -/
def NO_NODETYPE : String := ""

/-- `SearchSceneNodes.NODETYPES_DISPLAY = [NO_NODETYPE] + ALL_NODETYPES`:
the items of the node-type combo box, with the sentinel first. -/
def NODETYPES_DISPLAY (h : Host) : List String :=
  NO_NODETYPE :: h.allNodeTypes

/-- `self.nodetype_cb.itemText(i)`: the text of combo item `i`
(Qt returns the empty string for an out-of-range index). -/
def itemText (h : Host) (i : Nat) : String :=
  (NODETYPES_DISPLAY h).getD i ""

/-- Whether `needle` is a leading segment of `hay` (character lists). -/
def listLeadsWith : List Char → List Char → Bool
  | [], _ => true
  | _ :: _, [] => false
  | a :: as, b :: bs => a == b && listLeadsWith as bs

/-- Whether `needle` occurs contiguously inside `hay` (character lists).
Python's `needle in hay`; the empty needle occurs in everything. -/
def listHasInfix (needle : List Char) : List Char → Bool
  | [] => needle.isEmpty
  | c :: t => listLeadsWith needle (c :: t) || listHasInfix needle t

/-- Python `needle in hay` on strings. -/
def pyIn (needle hay : String) : Bool :=
  listHasInfix needle.data hay.data

/-- The search test of `update_display_nodes`:
`filter_string.lower() in node.lower()`.  Lowercasing is done per character
on the string's character data (node names are ASCII identifiers). -/
def substrMatch (q n : String) : Bool :=
  listHasInfix (q.data.map Char.toLower) (n.data.map Char.toLower)

/-- The dialog's state: the working set `self.scene_nodes`, the widgets the
script reads or writes (search line edit text, exclude-shapes checkbox,
node-type combo box index and current text, list-widget contents), the class
attribute `last_sel_node_type`, and Qt's hidden/visible flag. -/
structure Dialog where
  scene_nodes : List String
  search_text : String
  no_shapes_checked : Bool
  combo_index : Nat
  combo_text : String
  last_sel_node_type : String
  display_nodes : List String
  hidden : Bool
deriving DecidableEq

/-- The list computed by `update_display_nodes`: the working set narrowed to
names matching the search text, then (when the checkbox is checked) with the
host's live shape nodes removed. -/
def displayedOf (h : Host) (excl : Bool) (q : String) (working : List String) :
    List String :=
  let nodes := working.filter (fun node => substrMatch q node)
  if excl then
    nodes.filter (fun node => !(h.lsShapes.contains node))
  else
    nodes

/-- `update_display_nodes`: recompute the list widget's contents from the
working set, the search text and the exclude-shapes checkbox. -/
def update_display_nodes (h : Host) (s : Dialog) : Dialog :=
  { s with display_nodes := displayedOf h s.no_shapes_checked s.search_text s.scene_nodes }

/-- `filter_node_type(node_type)`: reassign the working set (full `ls()` when
`node_type` equals `itemText(0)`, else `ls(type=node_type)`), recompute the
displayed list, and record the chosen type. -/
def filter_node_type (h : Host) (s : Dialog) (node_type : String) : Dialog :=
  let s1 :=
    if node_type = itemText h 0 then
      { s with scene_nodes := h.ls }
    else
      { s with scene_nodes := h.lsType node_type }
  let s2 := update_display_nodes h s1
  { s2 with last_sel_node_type := node_type }

/-- `reload_scene_nodes`: literally `filter_node_type(nodetype_cb.currentText())`. -/
def reload_scene_nodes (h : Host) (s : Dialog) : Dialog :=
  filter_node_type h s s.combo_text

/-- `update_node_type(index)`: the slot for `currentIndexChanged`; applies
`filter_node_type(itemText(index))`. -/
def update_node_type (h : Host) (s : Dialog) (index : Nat) : Dialog :=
  filter_node_type h s (itemText h index)

/-- `nodetype_cb.setCurrentIndex(i)`.  Qt only emits `currentIndexChanged`
when the index actually changes; when it does, the combo's index and text are
updated first and then the connected slot `update_node_type` runs. -/
def setCurrentIndex (h : Host) (s : Dialog) (i : Nat) : Dialog :=
  if s.combo_index = i then
    s
  else
    update_node_type h { s with combo_index := i, combo_text := itemText h i } i

/-- The "Clear Node Type" button: `nodetype_cb.setCurrentIndex(0)`. -/
def clear_node_type (h : Host) (s : Dialog) : Dialog :=
  setCurrentIndex h s 0

/-- `exclude_shapes_changed`: the slot for the checkbox's `clicked` signal;
calls `update_display_nodes()` and then `reload_scene_nodes()`. -/
def exclude_shapes_changed (h : Host) (s : Dialog) : Dialog :=
  reload_scene_nodes h (update_display_nodes h s)

/-- A user click on the "Exclude Shapes" checkbox: Qt flips the checked state
and then emits `clicked`, running `exclude_shapes_changed`. -/
def toggle_exclude_shapes (h : Host) (s : Dialog) : Dialog :=
  exclude_shapes_changed h { s with no_shapes_checked := !s.no_shapes_checked }

/-- `item_selection_changed`: the list handed to `cmds.select` — the texts of
the highlighted items that still exist in the host scene. -/
def item_selection_changed (h : Host) (selected : List String) : List String :=
  selected.filter (fun item => h.objExists item)

/-- `__init__`: take the initial snapshot `cmds.ls()`, create the widgets
(search edit empty, checkbox unchecked, combo at index 0 showing the
sentinel), and run `update_display_nodes`.  A freshly constructed Qt dialog
is hidden until shown. -/
def init_dialog (h : Host) : Dialog :=
  update_display_nodes h
    { scene_nodes := h.ls
      search_text := ""
      no_shapes_checked := false
      combo_index := 0
      combo_text := itemText h 0
      last_sel_node_type := NO_NODETYPE
      display_nodes := []
      hidden := true }

/-- The outcome of `show_ui`: the (single) resulting instance, whether a new
instance was constructed, whether `show()` was called, and whether
`raise_()`/`activateWindow()` were called. -/
structure ShowResult where
  inst : Dialog
  constructed : Bool
  shown : Bool
  raisedFocused : Bool
deriving DecidableEq

/-- `show_ui`: construct an instance only when `cls.ui_instance` is unset;
then `show()` it when hidden, else raise and focus it. -/
def show_ui (h : Host) (ui_instance : Option Dialog) : ShowResult :=
  let instAndNew : Dialog × Bool :=
    match ui_instance with
    | none => (init_dialog h, true)
    | some d => (d, false)
  if instAndNew.1.hidden then
    { inst := { instAndNew.1 with hidden := false }
      constructed := instAndNew.2
      shown := true
      raisedFocused := false }
  else
    { inst := instAndNew.1
      constructed := instAndNew.2
      shown := false
      raisedFocused := true }

/-- The three mutating operations of the spec: set type filter, reload,
toggle exclude-shapes. -/
inductive MutOp where
  | setType (t : String)
  | reload
  | toggleExcl
deriving DecidableEq

/-- Run a mutating operation on the dialog. -/
def applyMutOp (op : MutOp) (h : Host) (s : Dialog) : Dialog :=
  match op with
  | .setType t => filter_node_type h s t
  | .reload => reload_scene_nodes h s
  | .toggleExcl => toggle_exclude_shapes h s

/-! Concrete host and dialog states used as witnesses, taken from the
worked example of the specification: scene
`["pCube1", "pCube1Shape", "joint1"]` with `pCube1Shape` the only shape. -/

/-- Example host: a cube transform, its shape, and a joint. -/
def egHost : Host :=
  { scene :=
      [ { name := "pCube1", ntype := "transform", isShape := false }
      , { name := "pCube1Shape", ntype := "mesh", isShape := true }
      , { name := "joint1", ntype := "joint", isShape := false } ]
    allNodeTypes := ["transform", "mesh", "joint"] }

/-- A freshly constructed dialog over `egHost` (all filters neutral). -/
def egSynced : Dialog := init_dialog egHost

/-- The same dialog, currently visible. -/
def egVisible : Dialog := { egSynced with hidden := false }

/-- The dialog with search text `"cube"` typed in. -/
def egSearch : Dialog := { egSynced with search_text := "cube" }

/-- A dialog whose working set is stale: it was snapshotted before
`pCube1Shape` and `joint1` were created, while the combo sits at the sentinel
(index 0).  Its displayed list is consistent with its own state. -/
def staleState : Dialog :=
  { scene_nodes := ["pCube1"]
    search_text := ""
    no_shapes_checked := false
    combo_index := 0
    combo_text := ""
    last_sel_node_type := ""
    display_nodes := ["pCube1"]
    hidden := false }

/-- The stale dialog with the combo moved to index 1 (`"transform"`). -/
def staleState2 : Dialog :=
  { staleState with combo_index := 1, combo_text := "transform" }

/-! Helper lemmas. -/

/-- Combo item 0 is the sentinel: `NODETYPES_DISPLAY` puts `NO_NODETYPE` first. -/
theorem itemText_zero (h : Host) : itemText h 0 = NO_NODETYPE := rfl

/-- With unique scene node names, `find?` by name returns the member itself. -/
theorem find_name_of_nodup (l : List SceneNode)
    (hnd : (l.map SceneNode.name).Nodup) {nd : SceneNode} (hm : nd ∈ l) :
    l.find? (fun x => x.name == nd.name) = some nd := by
  induction l with
  | nil => cases hm
  | cons a t ih =>
    have hnd' : a.name ∉ t.map SceneNode.name ∧ (t.map SceneNode.name).Nodup := by
      rw [List.map_cons, List.nodup_cons] at hnd
      exact hnd
    rcases List.mem_cons.mp hm with h1 | h1
    · subst h1
      simp [List.find?]
    · have hne : (a.name == nd.name) = false := by
        apply beq_eq_false_iff_ne.mpr
        intro hcontra
        exact hnd'.1 (hcontra ▸ List.mem_map_of_mem SceneNode.name h1)
      rw [List.find?_cons_of_neg _ (by simp [hne]), ih hnd'.2 h1]

/-- With unique scene node names, `typeOf` recovers each node's type. -/
theorem typeOf_of_mem (h : Host) (hnd : (h.scene.map SceneNode.name).Nodup)
    {nd : SceneNode} (hm : nd ∈ h.scene) : h.typeOf nd.name = nd.ntype := by
  unfold Host.typeOf
  rw [find_name_of_nodup h.scene hnd hm]

/-- With unique scene node names, the host's by-type query is exactly the
full snapshot filtered by each name's type. -/
theorem lsType_eq_filter_typeOf (h : Host) (t : String)
    (hnd : (h.scene.map SceneNode.name).Nodup) :
    h.lsType t = h.ls.filter (fun n => h.typeOf n == t) := by
  unfold Host.lsType Host.ls
  rw [List.filter_map]
  congr 1
  apply List.filter_congr
  intro nd hm
  simp [Function.comp, typeOf_of_mem h hnd hm]

/-- Every name returned by the by-type query is in the full snapshot. -/
theorem mem_ls_of_mem_lsType (h : Host) (t n : String) (hm : n ∈ h.lsType t) :
    n ∈ h.ls := by
  unfold Host.lsType Host.ls at *
  rcases List.mem_map.mp hm with ⟨nd, hnd, rfl⟩
  exact List.mem_map_of_mem _ (List.mem_of_mem_filter hnd)

/-- Unfolding `filter_node_type` into one record update: the working set
becomes the host query selected by the sentinel test, the display is
recomputed, and the chosen type is recorded. -/
theorem filter_node_type_step (h : Host) (s : Dialog) (t : String) :
    filter_node_type h s t =
      { s with
          scene_nodes := (if t = NO_NODETYPE then h.ls else h.lsType t)
          display_nodes := displayedOf h s.no_shapes_checked s.search_text
            (if t = NO_NODETYPE then h.ls else h.lsType t)
          last_sel_node_type := t } := by
  unfold filter_node_type update_display_nodes
  by_cases hc : t = NO_NODETYPE <;> simp [itemText_zero, hc]

/-- Unfolding a checkbox toggle into one record update: the flag flips, and
the trailing `reload_scene_nodes` reassigns the working set from the host
(using the combo's current text) and recomputes the display from it. -/
theorem toggle_step (h : Host) (s : Dialog) :
    toggle_exclude_shapes h s =
      { s with
          no_shapes_checked := !s.no_shapes_checked
          scene_nodes :=
            (if s.combo_text = NO_NODETYPE then h.ls else h.lsType s.combo_text)
          display_nodes := displayedOf h (!s.no_shapes_checked) s.search_text
            (if s.combo_text = NO_NODETYPE then h.ls else h.lsType s.combo_text)
          last_sel_node_type := s.combo_text } := by
  unfold toggle_exclude_shapes exclude_shapes_changed reload_scene_nodes
  rw [update_display_nodes, filter_node_type_step]

/-- A name in the branch of the sentinel test is in the full snapshot. -/
theorem mem_ls_of_mem_ite (h : Host) (t n : String)
    (hm : n ∈ (if t = NO_NODETYPE then h.ls else h.lsType t)) : n ∈ h.ls := by
  by_cases hc : t = NO_NODETYPE
  · simpa [hc] using hm
  · exact mem_ls_of_mem_lsType h t n (by simpa [hc] using hm)

/-! The claims. -/

/-- C1: applying the type filter sets the Working Set to exactly the names of
the snapshot whose type is the chosen one, and to the full snapshot when the
chosen type is the sentinel (the empty first combo entry). -/
theorem filter_node_type_sets_working_set (h : Host) (s : Dialog) (t : String)
    (hnd : (h.scene.map SceneNode.name).Nodup) :
    (filter_node_type h s t).scene_nodes =
      if t = NO_NODETYPE then h.ls
      else h.ls.filter (fun n => h.typeOf n == t) := by
  by_cases ht : t = NO_NODETYPE
  · simp [filter_node_type, update_display_nodes, itemText_zero, ht]
  · simp [filter_node_type, update_display_nodes, itemText_zero, ht,
      lsType_eq_filter_typeOf h t hnd]

/-- Witness for C1 at the example host: filtering by `"mesh"` keeps exactly
the mesh-typed name. -/
theorem filter_node_type_sets_working_set_witness :
    ((egHost.scene.map SceneNode.name).Nodup) ∧
    (filter_node_type egHost egSynced "mesh").scene_nodes =
      (if "mesh" = NO_NODETYPE then egHost.ls
       else egHost.ls.filter (fun n => egHost.typeOf n == "mesh")) :=
  ⟨by decide, filter_node_type_sets_working_set egHost egSynced "mesh" (by decide)⟩

/-- C2: with exclude-shapes off, recomputing the display keeps exactly the
working-set names whose lowercase form contains the lowercase search text,
in working-set order, and leaves the Working Set itself unchanged. -/
theorem update_display_nodes_search_spec (h : Host) (s : Dialog)
    (hc : s.no_shapes_checked = false) :
    (update_display_nodes h s).scene_nodes = s.scene_nodes ∧
    (update_display_nodes h s).display_nodes =
      s.scene_nodes.filter (fun n => substrMatch s.search_text n) := by
  constructor
  · rfl
  · simp [update_display_nodes, displayedOf, hc]

/-- Witness for C2: searching `"cube"` over the example snapshot displays
exactly the two cube names (the spec's worked example). -/
theorem update_display_nodes_search_spec_witness :
    (egSearch.no_shapes_checked = false) ∧
    (update_display_nodes egHost egSearch).scene_nodes = egSearch.scene_nodes ∧
    (update_display_nodes egHost egSearch).display_nodes = ["pCube1", "pCube1Shape"] :=
  ⟨rfl, (update_display_nodes_search_spec egHost egSearch rfl).1,
    ((update_display_nodes_search_spec egHost egSearch rfl).2).trans (by decide)⟩

/-- C3 counterexample: toggling exclude-shapes does alter the Working Set —
`exclude_shapes_changed` also calls `reload_scene_nodes`, so a stale working
set is replaced by a fresh host query when the checkbox is clicked. -/
theorem toggle_exclude_alters_working_set :
    (toggle_exclude_shapes egHost staleState).scene_nodes ≠ staleState.scene_nodes := by
  decide

/-- C3 amended: toggling the checkbox flips the flag, and — because the slot
also calls `reload_scene_nodes` — reassigns the Working Set to the host query
for the combo's current text (the full snapshot at the sentinel) and
recomputes the Displayed Set from that new Working Set and the new flag. -/
theorem toggle_exclude_shapes_spec (h : Host) (s : Dialog) :
    (toggle_exclude_shapes h s).no_shapes_checked = !s.no_shapes_checked ∧
    (toggle_exclude_shapes h s).scene_nodes =
      (if s.combo_text = NO_NODETYPE then h.ls else h.lsType s.combo_text) ∧
    (toggle_exclude_shapes h s).display_nodes =
      displayedOf h (!s.no_shapes_checked) s.search_text
        (if s.combo_text = NO_NODETYPE then h.ls else h.lsType s.combo_text) := by
  rw [toggle_step]
  exact ⟨rfl, rfl, rfl⟩

/-- C4 counterexample: with the host fixed, enabling then disabling
exclude-shapes from a stale (but internally consistent) dialog state does not
restore the Displayed Set, because each toggle also reloads the Working Set
from the host. -/
theorem toggle_roundtrip_fails_on_stale_state :
    (toggle_exclude_shapes egHost (toggle_exclude_shapes egHost staleState)).display_nodes
      ≠ staleState.display_nodes := by
  decide

/-- C4 amended: with the host fixed and the dialog in sync with it (the
Working Set equals the host query for the combo's current text, the checkbox
is off, and the Displayed Set equals its recomputation), enabling
exclude-shapes removes from the Displayed Set exactly the names in the live
shape-node set, and disabling it again restores the Displayed Set. -/
theorem toggle_exclude_roundtrip (h : Host) (s : Dialog)
    (hw : s.scene_nodes =
      (if s.combo_text = NO_NODETYPE then h.ls else h.lsType s.combo_text))
    (hc : s.no_shapes_checked = false)
    (hd : s.display_nodes = displayedOf h false s.search_text s.scene_nodes) :
    (toggle_exclude_shapes h s).display_nodes =
      s.display_nodes.filter (fun n => !(h.lsShapes.contains n)) ∧
    (toggle_exclude_shapes h (toggle_exclude_shapes h s)).display_nodes =
      s.display_nodes := by
  rw [toggle_step, toggle_step]
  simp only [hc, Bool.not_false, Bool.not_true, hd, hw]
  constructor
  · simp [displayedOf]
  · simp [displayedOf]

/-- Witness for C4 amended at a freshly opened dialog over the example host. -/
theorem toggle_exclude_roundtrip_witness :
    (egSynced.scene_nodes =
      (if egSynced.combo_text = NO_NODETYPE then egHost.ls
       else egHost.lsType egSynced.combo_text)) ∧
    (egSynced.no_shapes_checked = false) ∧
    (egSynced.display_nodes =
      displayedOf egHost false egSynced.search_text egSynced.scene_nodes) ∧
    (toggle_exclude_shapes egHost (toggle_exclude_shapes egHost egSynced)).display_nodes
      = egSynced.display_nodes :=
  ⟨by decide, by decide, by decide,
    (toggle_exclude_roundtrip egHost egSynced (by decide) (by decide) (by decide)).2⟩

/-- C5: the selection-changed slot hands the host exactly the highlighted
names that still exist (order taken from the highlighted list), and the empty
list when nothing is highlighted. -/
theorem item_selection_changed_spec (h : Host) (selected : List String) :
    item_selection_changed h selected = selected.filter (fun n => h.objExists n) ∧
    (∀ n : String, n ∈ item_selection_changed h selected ↔
      n ∈ selected ∧ h.objExists n = true) ∧
    item_selection_changed h [] = [] := by
  refine ⟨rfl, ?_, rfl⟩
  intro n
  simp [item_selection_changed, List.mem_filter]

/-- C6: `reload_scene_nodes` is exactly `filter_node_type` applied to the
combo's current text; it re-fetches the snapshot (or by-type query) and
recomputes the Displayed Set from the new Working Set. -/
theorem reload_equals_filter_current_type (h : Host) (s : Dialog) :
    reload_scene_nodes h s = filter_node_type h s s.combo_text ∧
    (reload_scene_nodes h s).scene_nodes =
      (if s.combo_text = NO_NODETYPE then h.ls else h.lsType s.combo_text) ∧
    (reload_scene_nodes h s).display_nodes =
      displayedOf h s.no_shapes_checked s.search_text
        (if s.combo_text = NO_NODETYPE then h.ls else h.lsType s.combo_text) := by
  refine ⟨rfl, ?_, ?_⟩ <;> rw [reload_scene_nodes, filter_node_type_step]

/-- C7: calling `show_ui` while an instance exists and is visible constructs
no second instance; the existing instance is kept and is raised and focused
rather than shown. -/
theorem show_ui_visible_no_new_instance (h : Host) (d : Dialog)
    (hv : d.hidden = false) :
    (show_ui h (some d)).constructed = false ∧
    (show_ui h (some d)).inst = d ∧
    (show_ui h (some d)).shown = false ∧
    (show_ui h (some d)).raisedFocused = true := by
  simp [show_ui, hv]

/-- Witness for C7 at a visible example dialog. -/
theorem show_ui_visible_no_new_instance_witness :
    (egVisible.hidden = false) ∧
    (show_ui egHost (some egVisible)).constructed = false ∧
    (show_ui egHost (some egVisible)).inst = egVisible :=
  ⟨by decide, (show_ui_visible_no_new_instance egHost egVisible (by decide)).1,
    (show_ui_visible_no_new_instance egHost egVisible (by decide)).2.1⟩

/-- C8: after each of the three mutating operations (set type filter, reload,
toggle exclude-shapes), every name in the Working Set is in the host's full
snapshot. -/
theorem working_set_subset_of_snapshot (op : MutOp) (h : Host) (s : Dialog)
    (n : String) (hm : n ∈ (applyMutOp op h s).scene_nodes) : n ∈ h.ls := by
  cases op with
  | setType t =>
    simp only [applyMutOp, filter_node_type_step] at hm
    exact mem_ls_of_mem_ite h t n hm
  | reload =>
    simp only [applyMutOp, reload_scene_nodes, filter_node_type_step] at hm
    exact mem_ls_of_mem_ite h s.combo_text n hm
  | toggleExcl =>
    simp only [applyMutOp, toggle_step] at hm
    exact mem_ls_of_mem_ite h s.combo_text n hm

/-- Witness for C8: after filtering by `"mesh"`, the working set's one entry
is in the snapshot. -/
theorem working_set_subset_of_snapshot_witness :
    ("pCube1Shape" ∈ (applyMutOp (.setType "mesh") egHost egSynced).scene_nodes) ∧
    "pCube1Shape" ∈ egHost.ls :=
  ⟨by decide,
    working_set_subset_of_snapshot (.setType "mesh") egHost egSynced "pCube1Shape"
      (by decide)⟩

/-- C9 counterexample: when the combo box already sits at index 0, clicking
"Clear Node Type" emits no `currentIndexChanged` signal, so nothing runs: a
stale Working Set is NOT reset to the full current host snapshot. -/
theorem clear_node_type_noop_at_index_zero :
    clear_node_type egHost staleState = staleState ∧
    staleState.scene_nodes ≠ egHost.ls := by
  decide

/-- C9 amended: clicking "Clear Node Type" sets the combo index to 0; when
the index was not already 0 this fires the index-changed slot, which resets
the Working Set to the full current snapshot and recomputes the Displayed
Set; when it was already 0, Qt emits no signal and the state is unchanged. -/
theorem clear_node_type_spec (h : Host) (s : Dialog) :
    (s.combo_index = 0 → clear_node_type h s = s) ∧
    (s.combo_index ≠ 0 →
      (clear_node_type h s).combo_index = 0 ∧
      (clear_node_type h s).combo_text = NO_NODETYPE ∧
      (clear_node_type h s).scene_nodes = h.ls ∧
      (clear_node_type h s).display_nodes =
        displayedOf h s.no_shapes_checked s.search_text h.ls) := by
  constructor
  · intro h0
    simp [clear_node_type, setCurrentIndex, h0]
  · intro hne
    unfold clear_node_type setCurrentIndex update_node_type
    rw [if_neg hne, filter_node_type_step]
    simp [itemText_zero]

/-- Witness for C9 amended: clearing from combo index 1 resets the stale
working set to the full snapshot; clearing at index 0 changes nothing. -/
theorem clear_node_type_spec_witness :
    (staleState2.combo_index ≠ 0) ∧
    (clear_node_type egHost staleState2).scene_nodes = egHost.ls ∧
    clear_node_type egHost staleState2 ≠ staleState2 :=
  ⟨by decide, ((clear_node_type_spec egHost staleState2).2 (by decide)).2.2.1,
    by decide⟩

/-- C10: re-showing the dialog while a hidden instance exists constructs
nothing new and only flips visibility: the Working Set, search text, combo
state and checkbox are exactly as they were when the dialog was hidden. -/
theorem show_ui_hidden_preserves_state (h : Host) (d : Dialog)
    (hh : d.hidden = true) :
    (show_ui h (some d)).constructed = false ∧
    (show_ui h (some d)).shown = true ∧
    (show_ui h (some d)).inst = { d with hidden := false } ∧
    (show_ui h (some d)).inst.scene_nodes = d.scene_nodes ∧
    (show_ui h (some d)).inst.search_text = d.search_text ∧
    (show_ui h (some d)).inst.combo_index = d.combo_index ∧
    (show_ui h (some d)).inst.combo_text = d.combo_text ∧
    (show_ui h (some d)).inst.no_shapes_checked = d.no_shapes_checked := by
  simp [show_ui, hh]

/-- Witness for C10 at a hidden example dialog. -/
theorem show_ui_hidden_preserves_state_witness :
    (egSynced.hidden = true) ∧
    (show_ui egHost (some egSynced)).inst.scene_nodes = egSynced.scene_nodes ∧
    (show_ui egHost (some egSynced)).constructed = false :=
  ⟨by decide, (show_ui_hidden_preserves_state egHost egSynced (by decide)).2.2.2.1,
    (show_ui_hidden_preserves_state egHost egSynced (by decide)).1⟩

end SearchSceneNodes
